import Mathlib

/-!
# Trivia API — verification of the flaskr request handlers

A shallow embedding of `backend/flaskr/__init__.py`. Each Flask route
handler becomes a pure Lean function from the request's relevant inputs
and the database state (a list of rows) to a response; `abort(code)` is
modelled by `Resp.err code` (the registered error handler then renders
the JSON error body), a 200 `jsonify({"success": True, ...})` by
`Resp.ok payload`.

`backend/models.py` is not part of the sources; the pieces of it the
handlers call (`Question.format`, `Question.insert`, `Question.delete`,
rollback) are modelled from the spec, and each such definition says so
in its doc string. Environment effects (whether a commit succeeds, the
id the database assigns, the index `random.randrange` draws) are passed
as explicit parameters.
-/

namespace Trivia

/-- A JSON-ish value: request-body fields and the loosely-typed stored
columns (the spec calls `Question.category` a "stringified integer",
stored as a loosely-typed string/int). -/
inductive JVal where
  | null : JVal
  | bool : Bool → JVal
  | num : Int → JVal
  | str : String → JVal
deriving DecidableEq

/-- A stored question row. The id is the integer primary key; the other
columns hold whatever the create endpoint put there (loosely typed). -/
structure Question where
  id : Nat
  question : JVal
  answer : JVal
  category : JVal
  difficulty : JVal
deriving DecidableEq

/-- A stored category row. -/
structure Category where
  id : Nat
  type : String
deriving DecidableEq

/-- The JSON object `Question.format()` produces: the row's five fields.
Modelled from the spec: `backend/models.py` is not among the sources;
per the spec's data model a formatted question carries the identifier,
question text, answer text, category and difficulty of the row. -/
structure FormattedQuestion where
  id : Nat
  question : JVal
  answer : JVal
  category : JVal
  difficulty : JVal
deriving DecidableEq

/-- Modelled from the spec: `Question.format` (defined in the missing
`backend/models.py`) serialises a row into the JSON object with the
row's five fields. -/
def Question.format (q : Question) : FormattedQuestion :=
  ⟨q.id, q.question, q.answer, q.category, q.difficulty⟩

/-- A handler outcome: a 200 JSON success payload, or `abort(code)`
routed to the matching error handler. -/
inductive Resp (α : Type) where
  | ok : α → Resp α
  | err : Nat → Resp α
deriving DecidableEq

/-- CPython's index normalisation for a one-sided slice bound on a list
of length `n`: negative indices count from the end, then the index is
clamped into `[0, n]`. -/
def pyIndex (n : Nat) (i : Int) : Nat :=
  (min (max (if i < 0 then i + n else i) 0) (n : Int)).toNat

/-- Python's `l[a:b]` (step 1): the elements whose positions lie in
`[pyIndex n a, pyIndex n b)`. -/
def pySlice (a b : Int) (l : List α) : List α :=
  (l.take (pyIndex l.length b)).drop (pyIndex l.length a)

def QUESTIONS_PER_PAGE : Int := 10

/-- Helper `paginate_questions` (lines 11–21): read `page` from the query
string (`request.args.get` returns the default 1 when the parameter is
absent or unparseable), format every row of the selection, and return
the Python slice `questions[(page-1)*10 : (page-1)*10 + 10]`. -/
def paginate_questions (page : Option Int) (selection : List Question) :
    List FormattedQuestion :=
  let p := page.getD 1
  let start := (p - 1) * QUESTIONS_PER_PAGE
  pySlice start (start + QUESTIONS_PER_PAGE) (selection.map Question.format)

/-- A small distinct question row used for concrete evaluations. -/
def mkQ (n : Nat) : Question :=
  ⟨n, .str ("the cat " ++ toString n), .str "a", .str "1", .num 1⟩

/-- Eleven distinct rows: one more than a page. -/
def demo11 : List Question :=
  [mkQ 1, mkQ 2, mkQ 3, mkQ 4, mkQ 5, mkQ 6, mkQ 7, mkQ 8, mkQ 9, mkQ 10,
   mkQ 11]

/-- SQL `LIKE` / `ILIKE` pattern matching over character lists, with the
case-insensitivity of `ILIKE` built in: `%` matches any sequence of
characters (tried here as every possible number of characters to skip),
`_` matches exactly one character, and any other pattern character
matches a text character up to lower-casing. -/
def likeMatch : List Char → List Char → Bool
  | [], cs => cs.isEmpty
  | p :: ps, cs =>
    if p = '%' then
      (List.range (cs.length + 1)).any (fun n => likeMatch ps (cs.drop n))
    else
      match cs with
      | [] => false
      | c :: cs2 =>
        (if p = '_' then true else decide (p.toLower = c.toLower))
          && likeMatch ps cs2

/-- The pattern `"%" + search_term + "%"` built on line 166, as a
character list. -/
def ilikePattern (t : String) : List Char :=
  '%' :: (t.toList ++ ['%'])

/-- The SQL filter `Question.question.ilike("%" + term + "%")` applied
to one stored value: a non-string (in particular SQL `NULL`) never
matches. -/
def ilikeQ (t : String) (v : JVal) : Bool :=
  match v with
  | .str s => likeMatch (ilikePattern t) s.toList
  | _ => false

/-- SQL equality on loosely-typed column values: a comparison involving
`NULL` is not true (the row is filtered out), otherwise plain equality. -/
def sqlEq (a b : JVal) : Bool :=
  match a, b with
  | .null, _ => false
  | _, .null => false
  | a, b => a == b

/-- Payload of a successful `POST /questions/search` (lines 173–178). -/
structure SearchPayload where
  questions : List FormattedQuestion
  total_questions : Nat
  current_category : JVal
deriving DecidableEq

/-- Handler `search_questions` (lines 158–180): a falsy search term aborts with
404; otherwise the questions whose text matches `ILIKE %term%` are
collected (in store order — the query has no `order_by`); no match
aborts with 404; otherwise the matches are paginated and returned with
the full match count and a null current category. -/
def search_questions (page : Option Int) (searchTerm : Option String)
    (db : List Question) : Resp SearchPayload :=
  match searchTerm with
  | some t =>
    if t = "" then .err 404
    else
      let ms := db.filter (fun q => ilikeQ t q.question)
      if ms = [] then .err 404
      else .ok ⟨paginate_questions page ms, ms.length, .null⟩
  | none => .err 404

/-- The `quiz_category` object of a `POST /quizzes` body: a JSON object
with a `type` and an `id` member. -/
structure QuizCategory where
  type : JVal
  id : JVal
deriving DecidableEq

/-- Payload of a successful `POST /quizzes` (lines 239–242): the drawn
question, or `null` when no candidate is left. -/
structure QuizPayload where
  question : Option FormattedQuestion
deriving DecidableEq

/-- The candidate query of `play_quiz` (lines 232–235): all questions
whose id is not among `previous_questions`, additionally filtered to
`Question.category == quiz_category['id']` unless the sentinel category
type `"click"` was sent. -/
def quizCandidates (prev : List Nat) (qc : QuizCategory)
    (db : List Question) : List Question :=
  if qc.type = .str "click" then
    db.filter (fun q => decide (q.id ∉ prev))
  else
    db.filter (fun q => sqlEq q.category qc.id && decide (q.id ∉ prev))

/-- Drawing `random.randrange(0, l.length)` is modelled by an arbitrary draw
parameter `r` reduced mod the length; on an empty list (where the code
never indexes) it yields nothing. -/
def randPick (r : Nat) (l : List α) : Option α :=
  l.get? (r % l.length)

/-- Handler `play_quiz` (lines 219–245): abort 422 unless both
`previous_questions` and `quiz_category` are present in the body;
otherwise answer 200 with a candidate drawn at the random index, or with
a null question when no candidate remains. -/
def play_quiz (prev : Option (List Nat)) (qc : Option QuizCategory)
    (r : Nat) (db : List Question) : Resp QuizPayload :=
  match prev, qc with
  | some ps, some c =>
    .ok ⟨(randPick r (quizCandidates ps c db)).map Question.format⟩
  | _, _ => .err 422

/-- Payload of a successful `DELETE /questions/{id}` (lines 107–110). -/
structure DeletePayload where
  deleted : Nat
deriving DecidableEq

/-- Handler `delete_question` (lines 99–112): `.one()` raises unless the filter
by id finds exactly one row, and the bare `except` turns any raise into
abort 422. `deleteOk` models whether the database delete commits;
`Question.delete` itself is modelled from the spec (`backend/models.py`
is missing): it removes the row from the store. On success the deleted
id is returned. -/
def delete_question (qid : Nat) (deleteOk : Bool) (db : List Question) :
    List Question × Resp DeletePayload :=
  let found := db.filter (fun q => q.id == qid)
  if found.length = 1 then
    if deleteOk then (db.filter (fun q => !(q.id == qid)), .ok ⟨qid⟩)
    else (db, .err 422)
  else (db, .err 422)

/-- Membership `'k' in body` for a JSON-object request body. -/
def hasKey (body : List (String × JVal)) (k : String) : Bool :=
  body.any (fun p => p.1 == k)

/-- Lookup `body.get('k')` once `'k' in body` is known: the stored value (a
JSON null stays `JVal.null`). -/
def getVal (body : List (String × JVal)) (k : String) : JVal :=
  ((body.find? (fun p => p.1 == k)).map (·.2)).getD .null

/-- The row `Question(question_val, answer_val, category_val,
difficulty_val)` built on line 136, with the id the database assigns on
insert. -/
def buildQuestion (body : List (String × JVal)) (newId : Nat) : Question :=
  ⟨newId, getVal body "question", getVal body "answer",
   getVal body "category", getVal body "difficulty"⟩

/-- Insert a question into a list sorted by ascending id. -/
def insertById (q : Question) : List Question → List Question
  | [] => [q]
  | r :: rs => if q.id ≤ r.id then q :: r :: rs else r :: insertById q rs

/-- The re-fetch `Question.query.order_by(Question.id).all()`: the store
sorted by ascending id (insertion sort). -/
def orderById : List Question → List Question
  | [] => []
  | q :: qs => insertById q (orderById qs)

/-- Payload of a successful `POST /questions` (lines 142–147). -/
structure AddPayload where
  created : Nat
  questions : List FormattedQuestion
  total_questions : Nat
deriving DecidableEq

/-- Handler `add_question` (lines 121–150): abort 422 unless all four keys
`question`, `answer`, `category`, `difficulty` are present in the body
(key presence only — the values are not inspected). Then build the row
and insert it. `insertOk` models whether the commit succeeds; insert,
the id assignment and the rollback called on failure are modelled from
the spec (`backend/models.py` is missing): a successful insert appends
the row with the database-assigned id `newId`, a failed one is rolled
back leaving the store unchanged, and the handler then aborts 422. On
success the ordered store is re-fetched, paginated and returned with the
new id and the total count. -/
def add_question (page : Option Int) (body : List (String × JVal))
    (insertOk : Bool) (newId : Nat) (db : List Question) :
    List Question × Resp AddPayload :=
  if hasKey body "question" && hasKey body "answer" &&
      hasKey body "category" && hasKey body "difficulty" then
    if insertOk then
      let db2 := db ++ [buildQuestion body newId]
      let listing := orderById db2
      (db2, .ok ⟨newId, paginate_questions page listing, listing.length⟩)
    else (db, .err 422)
  else (db, .err 422)

/-- Payload of a successful `GET /categories/{id}/questions`
(lines 201–206). -/
structure CatPayload where
  questions : List FormattedQuestion
  total_questions : Nat
  currentCategory : Nat
deriving DecidableEq

/-- Handler `retrieve_questions_by_category` (lines 187–208): abort 404 when the
path id is not among the stored category ids (the `abort` raised inside
the `try` is re-raised as 404 by the bare `except`); otherwise filter
the questions whose `category` column equals the stringified id,
paginate, and echo the id back as `currentCategory`. -/
def retrieve_questions_by_category (page : Option Int) (cid : Nat)
    (cats : List Category) (db : List Question) : Resp CatPayload :=
  if cid ∈ cats.map Category.id then
    let qs := db.filter (fun q => sqlEq q.category (.str (toString cid)))
    .ok ⟨paginate_questions page qs, qs.length, cid⟩
  else .err 404

/-- The JSON body and HTTP status the 400 handler renders
(lines 251–257). -/
def bad_request : List (String × JVal) × Nat :=
  ([("success", .bool false), ("error", .num 400),
    ("message", .str "bad request")], 400)

/-- The JSON body and HTTP status the 404 handler renders
(lines 259–265). -/
def not_found : List (String × JVal) × Nat :=
  ([("success", .bool false), ("error", .num 404),
    ("message", .str "resource not found")], 404)

/-- The JSON body and HTTP status the 422 handler renders
(lines 267–273). -/
def unprocessable : List (String × JVal) × Nat :=
  ([("success", .bool false), ("error", .num 422),
    ("message", .str "unprocessable")], 422)

/-- The JSON body and HTTP status the 500 handler renders
(lines 275–281) — note the source spells the message key `"messgae"`. -/
def internal_server_error : List (String × JVal) × Nat :=
  ([("success", .bool false), ("error", .num 500),
    ("messgae", .str "An internal error has occured")], 500)

/-- Look a key up in a JSON object body. -/
def lookupKey (k : String) (body : List (String × JVal)) : Option JVal :=
  (body.find? (fun p => p.1 == k)).map (·.2)

/-- Whether an optional JSON value is a string. -/
def isStrVal : Option JVal → Bool
  | some (.str _) => true
  | _ => false

/-- The error-body shape the spec claims, stated from the spec's words
(for comparison with the handlers above): a `success` member equal to
`false`, an `error` member equal to the status code, and a `message`
member carrying text. -/
abbrev claimedErrorShape (body : List (String × JVal)) (code : Int) : Prop :=
  lookupKey "success" body = some (.bool false) ∧
  lookupKey "error" body = some (.num code) ∧
  isStrVal (lookupKey "message" body) = true

/-- A question whose text is `"abc"`, for concrete evaluations. -/
def demoQabc : Question :=
  ⟨1, .str "abc", .str "a", .str "1", .num 1⟩

/-- A create-question body carrying all four required keys with ordinary
values. -/
def bodyAll : List (String × JVal) :=
  [("question", .str "Q"), ("answer", .str "A"),
   ("category", .str "1"), ("difficulty", .num 1)]

/-- A create-question body carrying all four required keys, each with a
JSON `null` value. -/
def bodyNulls : List (String × JVal) :=
  [("question", .null), ("answer", .null),
   ("category", .null), ("difficulty", .null)]

theorem pyIndex_nonneg (n : Nat) (i : Int) (h : 0 ≤ i) :
    pyIndex n i = min i.toNat n := by
  unfold pyIndex
  rw [if_neg (by omega)]
  omega

theorem slice_core (a m : Nat) (l : List α) :
    (l.take (min (a + m) l.length)).drop (min a l.length) =
      (l.drop a).take m := by
  rcases le_or_lt a l.length with ha | ha
  · have h1 : min a l.length = a := min_eq_left ha
    have h2 : l.take (min (a + m) l.length) = l.take (a + m) := by
      rw [← List.take_take, List.take_length]
    rw [h1, h2, List.drop_take]
    congr 1
    omega
  · have h1 : min a l.length = l.length := by omega
    have h2 : min (a + m) l.length = l.length := by omega
    rw [h1, h2, List.take_length, List.drop_length,
      List.drop_eq_nil_of_le (by omega), List.take_nil]

theorem paginate_pos (sel : List Question) (p : Int) (hp : 1 ≤ p) :
    paginate_questions (some p) sel
      = ((sel.map Question.format).drop ((p - 1) * 10).toNat).take 10 := by
  have h0 : (0 : Int) ≤ (p - 1) * 10 := by omega
  show pySlice ((p - 1) * 10) ((p - 1) * 10 + 10) (sel.map Question.format)
      = ((sel.map Question.format).drop ((p - 1) * 10).toNat).take 10
  unfold pySlice
  rw [pyIndex_nonneg _ _ h0, pyIndex_nonneg _ _ (by omega),
    show ((p - 1) * 10 + 10).toNat = ((p - 1) * 10).toNat + 10 by omega]
  exact slice_core _ _ _

/-- C1: for pages `p ≥ 1` the helper returns exactly the slice at offset
`(p-1)*10` of length `min 10 (max 0 (N - (p-1)*10))`, the page defaults
to 1 when absent, and a page past the end yields the empty slice. (The
claim's formula fails for pages below 1, where Python's negative-index
slicing applies — see the counterexample.) -/
theorem C1_pagination (sel : List Question) (p : Int) (hp : 1 ≤ p) :
    paginate_questions (some p) sel
        = ((sel.map Question.format).drop ((p - 1) * 10).toNat).take 10 ∧
    ((paginate_questions (some p) sel).length : Int)
        = min 10 (max 0 ((sel.length : Int) - (p - 1) * 10)) ∧
    paginate_questions none sel = paginate_questions (some 1) sel ∧
    ((sel.length : Int) ≤ (p - 1) * 10 →
      paginate_questions (some p) sel = []) := by
  have hmain := paginate_pos sel p hp
  have hcast : ((((p - 1) * 10).toNat : Nat) : Int) = (p - 1) * 10 :=
    Int.toNat_of_nonneg (by omega)
  refine ⟨hmain, ?_, rfl, ?_⟩
  · rw [hmain]
    rw [List.length_take, List.length_drop, List.length_map]
    omega
  · intro hbig
    rw [hmain, List.drop_eq_nil_of_le (by rw [List.length_map]; omega),
      List.take_nil]

/-- C1 counterexample: with eleven rows and the page parameter `-1`, the
helper returns a non-empty slice of length 1 (Python negative-index
slicing), while the claim's formula demands length
`min 10 (max 0 (11 - (-2)*10)) = 10` and also calls every out-of-range
page empty. -/
theorem C1_counterexample :
    paginate_questions (some (-1)) demo11 ≠ [] ∧
    ((paginate_questions (some (-1)) demo11).length : Int)
      ≠ min 10 (max 0 ((demo11.length : Int) - ((-1 : Int) - 1) * 10)) := by
  constructor <;> decide

theorem C1_pagination_witness :
    (1 : Int) ≤ 2 ∧
    (paginate_questions (some 2) demo11
        = ((demo11.map Question.format).drop (((2 : Int) - 1) * 10).toNat).take 10 ∧
      ((paginate_questions (some 2) demo11).length : Int)
        = min 10 (max 0 ((demo11.length : Int) - ((2 : Int) - 1) * 10)) ∧
      paginate_questions none demo11 = paginate_questions (some 1) demo11 ∧
      ((demo11.length : Int) ≤ ((2 : Int) - 1) * 10 →
        paginate_questions (some 2) demo11 = [])) :=
  ⟨by norm_num, C1_pagination demo11 2 (by norm_num)⟩

theorem likeMatch_pct_iff (ps cs : List Char) :
    likeMatch ('%' :: ps) cs = true ↔
      ∃ n, likeMatch ps (cs.drop n) = true := by
  have heq : likeMatch ('%' :: ps) cs
      = (List.range (cs.length + 1)).any (fun n => likeMatch ps (cs.drop n)) := by
    simp [likeMatch]
  rw [heq, List.any_eq_true]
  constructor
  · rintro ⟨n, _, hn⟩
    exact ⟨n, hn⟩
  · rintro ⟨n, hn⟩
    rcases le_or_lt n cs.length with h | h
    · exact ⟨n, List.mem_range.mpr (by omega), hn⟩
    · refine ⟨cs.length, List.mem_range.mpr (by omega), ?_⟩
      rw [List.drop_eq_nil_of_le (by omega)] at hn
      rw [List.drop_length]
      exact hn

theorem likeMatch_pct_all (cs : List Char) : likeMatch ['%'] cs = true := by
  rw [likeMatch_pct_iff]
  exact ⟨cs.length, by simp [likeMatch, List.drop_length]⟩

theorem likeMatch_exact (ps : List Char)
    (hclean : ∀ c ∈ ps, c ≠ '%' ∧ c ≠ '_') (cs : List Char) :
    likeMatch (ps ++ ['%']) cs = true ↔
      ∃ r, cs.map Char.toLower = ps.map Char.toLower ++ r := by
  induction ps generalizing cs with
  | nil => simpa using likeMatch_pct_all cs
  | cons p ps ih =>
    have hp := hclean p (List.mem_cons_self ..)
    have hps : ∀ c ∈ ps, c ≠ '%' ∧ c ≠ '_' :=
      fun c hc => hclean c (List.mem_cons_of_mem _ hc)
    cases cs with
    | nil => simp [likeMatch, hp.1]
    | cons c cs =>
      simp only [List.cons_append, likeMatch, if_neg hp.1, if_neg hp.2,
        Bool.and_eq_true, decide_eq_true_eq, List.map_cons,
        List.cons.injEq, List.append_eq]
      rw [ih hps]
      constructor
      · rintro ⟨he, r, hr⟩
        exact ⟨r, he.symm, hr⟩
      · rintro ⟨r, he, hr⟩
        exact ⟨he.symm, r, hr⟩

theorem ilike_iff_substring (t s : String)
    (hclean : ∀ c ∈ t.toList, c ≠ '%' ∧ c ≠ '_') :
    ilikeQ t (.str s) = true ↔
      ∃ l r, s.toList.map Char.toLower
        = l ++ t.toList.map Char.toLower ++ r := by
  show likeMatch ('%' :: (t.toList ++ ['%'])) s.toList = true ↔ _
  rw [likeMatch_pct_iff]
  constructor
  · rintro ⟨n, hn⟩
    rw [likeMatch_exact _ hclean] at hn
    obtain ⟨r, hr⟩ := hn
    refine ⟨(s.toList.take n).map Char.toLower, r, ?_⟩
    calc s.toList.map Char.toLower
        = (s.toList.take n).map Char.toLower
            ++ (s.toList.drop n).map Char.toLower := by
          rw [← List.map_append, List.take_append_drop]
      _ = _ := by rw [hr, List.append_assoc]
  · rintro ⟨l, r, h⟩
    refine ⟨l.length, ?_⟩
    rw [likeMatch_exact _ hclean]
    refine ⟨r, ?_⟩
    rw [List.map_drop, h, List.append_assoc, List.drop_left]

theorem paginate_default (sel : List Question) :
    paginate_questions none sel = (sel.map Question.format).take 10 := by
  calc paginate_questions none sel = paginate_questions (some 1) sel := rfl
    _ = ((sel.map Question.format).drop (((1 : Int) - 1) * 10).toNat).take 10 :=
        paginate_pos sel 1 le_rfl
    _ = (sel.map Question.format).take 10 := by norm_num

/-- C2 (amended): an empty or absent search term yields 404; matching is
case-insensitive SQL ILIKE of the pattern `%term%` against the question
text — for a term containing no `%` or `_` this coincides with
case-insensitive substring matching; a term matching no question yields
404; a term matching at least one question yields 200 with the matches
paginated (the first ten under the default page) and `total_questions`
equal to the size of the match set. -/
theorem C2_search (page : Option Int) (db : List Question) (t : String)
    (ht : t ≠ "") :
    search_questions page none db = .err 404 ∧
    search_questions page (some "") db = .err 404 ∧
    (db.filter (fun q => ilikeQ t q.question) = [] →
      search_questions page (some t) db = .err 404) ∧
    (∀ ms, ms = db.filter (fun q => ilikeQ t q.question) → ms ≠ [] →
      search_questions page (some t) db
          = .ok ⟨paginate_questions page ms, ms.length, .null⟩ ∧
      search_questions none (some t) db
          = .ok ⟨(ms.map Question.format).take 10, ms.length, .null⟩) ∧
    ((∀ c ∈ t.toList, c ≠ '%' ∧ c ≠ '_') → ∀ s : String,
      (ilikeQ t (.str s) = true ↔
        ∃ l r, s.toList.map Char.toLower
          = l ++ t.toList.map Char.toLower ++ r)) := by
  refine ⟨rfl, by simp [search_questions],
    ?_, ?_, fun hclean s => ilike_iff_substring t s hclean⟩
  · intro hnil
    simp [search_questions, ht, hnil]
  · rintro ms rfl hms
    constructor
    · simp [search_questions, ht, hms]
    · simp [search_questions, ht, hms, paginate_default]

/-- C2 counterexample: the term `"a_c"` is not a case-insensitive
substring of the question text `"abc"`, so the claim demands 404 on a
store holding only that question; the code's ILIKE treats `_` as a
one-character wildcard and answers 200 with the question. -/
theorem C2_counterexample :
    search_questions none (some "a_c") [demoQabc]
        = .ok ⟨[demoQabc.format], 1, .null⟩ ∧
    ¬ ∃ l r, "abc".toList.map Char.toLower
        = l ++ ("a_c".toList.map Char.toLower) ++ r := by
  constructor
  · decide
  · rintro ⟨l, r, h⟩
    have h1 : ("abc".toList.map Char.toLower).length = 3 := by decide
    have h2 : ("a_c".toList.map Char.toLower).length = 3 := by decide
    have h3 := congrArg List.length h
    rw [h1, List.length_append, List.length_append, h2] at h3
    have hl : l = [] := List.length_eq_zero.mp (by omega)
    have hr : r = [] := List.length_eq_zero.mp (by omega)
    subst hl hr
    rw [List.nil_append, List.append_nil] at h
    exact absurd h (by decide)

theorem C2_search_witness :
    ("cat" : String) ≠ "" ∧
    search_questions none (some "cat") demo11
      = .ok ⟨(demo11.map Question.format).take 10, demo11.length, .null⟩ := by
  have hf : demo11 = demo11.filter (fun q => ilikeQ "cat" q.question) := by
    decide
  have h := (C2_search none demo11 "cat" (by decide)).2.2.2.1 demo11 hf
    (by decide)
  exact ⟨by decide, h.2⟩

theorem randPick_mem {l : List α} {r : Nat} {x : α}
    (h : randPick r l = some x) : x ∈ l :=
  List.get?_mem h

/-- C3: with both body fields present, a question returned by the quiz
endpoint under the sentinel category type `"click"` comes from the full
store minus `previous_questions`; under any other category it comes from
the questions of that category (SQL equality of the stored category
value with `quiz_category.id`) minus `previous_questions`. -/
theorem C3_quiz_draw (prev : List Nat) (c : QuizCategory) (r : Nat)
    (db : List Question) (fq : FormattedQuestion) :
    (c.type = .str "click" →
      play_quiz (some prev) (some c) r db = .ok ⟨some fq⟩ →
      ∃ q, q ∈ db ∧ fq = q.format ∧ q.id ∉ prev) ∧
    (c.type ≠ .str "click" →
      play_quiz (some prev) (some c) r db = .ok ⟨some fq⟩ →
      ∃ q, q ∈ db ∧ fq = q.format ∧ sqlEq q.category c.id = true ∧
        q.id ∉ prev) := by
  constructor
  · intro htype heq
    have h1 : (randPick r (quizCandidates prev c db)).map Question.format
        = some fq := by simpa [play_quiz] using heq
    obtain ⟨q0, hq0, hfmt⟩ := Option.map_eq_some'.mp h1
    have hmem := randPick_mem hq0
    rw [quizCandidates, if_pos htype, List.mem_filter] at hmem
    exact ⟨q0, hmem.1, hfmt.symm, of_decide_eq_true hmem.2⟩
  · intro htype heq
    have h1 : (randPick r (quizCandidates prev c db)).map Question.format
        = some fq := by simpa [play_quiz] using heq
    obtain ⟨q0, hq0, hfmt⟩ := Option.map_eq_some'.mp h1
    have hmem := randPick_mem hq0
    rw [quizCandidates, if_neg htype, List.mem_filter] at hmem
    have hcond : sqlEq q0.category c.id = true ∧
        decide (q0.id ∉ prev) = true := by
      simpa [Bool.and_eq_true] using hmem.2
    exact ⟨q0, hmem.1, hfmt.symm, hcond.1, of_decide_eq_true hcond.2⟩

theorem C3_quiz_draw_witness :
    (∃ q, q ∈ [mkQ 1] ∧ (mkQ 1).format = q.format ∧
      q.id ∉ ([] : List Nat)) ∧
    (∃ q, q ∈ [mkQ 1] ∧ (mkQ 1).format = q.format ∧
      sqlEq q.category (JVal.str "1") = true ∧ q.id ∉ ([] : List Nat)) := by
  constructor
  · exact (C3_quiz_draw [] ⟨.str "click", .num 0⟩ 0 [mkQ 1]
      ((mkQ 1).format)).1 rfl (by decide)
  · exact (C3_quiz_draw [] ⟨.str "Science", .str "1"⟩ 0 [mkQ 1]
      ((mkQ 1).format)).2 (by decide) (by decide)

/-- C8: a `POST /quizzes` body missing `previous_questions` or
`quiz_category` gets 422; with both present and an empty candidate set
the endpoint answers success with a null question, not an error. -/
theorem C8_quiz_validation (prevO : Option (List Nat))
    (qcO : Option QuizCategory) (prev : List Nat) (c : QuizCategory)
    (r : Nat) (db : List Question) :
    play_quiz none qcO r db = .err 422 ∧
    play_quiz prevO none r db = .err 422 ∧
    (quizCandidates prev c db = [] →
      play_quiz (some prev) (some c) r db = .ok ⟨none⟩) := by
  refine ⟨?_, ?_, ?_⟩
  · cases qcO <;> rfl
  · cases prevO <;> rfl
  · intro hempty
    simp [play_quiz, hempty, randPick]

theorem C8_quiz_validation_witness :
    quizCandidates [1] ⟨.str "click", .num 0⟩ [mkQ 1] = [] ∧
    play_quiz (some [1]) (some ⟨.str "click", .num 0⟩) 0 [mkQ 1]
      = .ok ⟨none⟩ :=
  ⟨by decide, (C8_quiz_validation none none [1] ⟨.str "click", .num 0⟩ 0
    [mkQ 1]).2.2 (by decide)⟩

theorem insertById_length (q : Question) (l : List Question) :
    (insertById q l).length = l.length + 1 := by
  induction l with
  | nil => rfl
  | cons r rs ih =>
    unfold insertById
    split
    · rfl
    · simp [ih]

theorem orderById_length (l : List Question) :
    (orderById l).length = l.length := by
  induction l with
  | nil => rfl
  | cons q qs ih => simp [orderById, insertById_length, ih]

/-- C4: a `POST /questions` body missing any of the four required keys
gets 422 with the store untouched; when all keys are present but the
insert fails, the transaction is rolled back (the store is unchanged)
and the response is 422. -/
theorem C4_add_failure (page : Option Int) (body : List (String × JVal))
    (insertOk : Bool) (newId : Nat) (db : List Question) :
    (¬ (hasKey body "question" = true ∧ hasKey body "answer" = true ∧
        hasKey body "category" = true ∧ hasKey body "difficulty" = true) →
      add_question page body insertOk newId db = (db, .err 422)) ∧
    add_question page body false newId db = (db, .err 422) := by
  constructor
  · intro hmiss
    unfold add_question
    rw [if_neg (by simpa [Bool.and_eq_true, and_assoc] using hmiss)]
  · unfold add_question
    split
    · rfl
    · rfl

theorem C4_add_failure_witness :
    (¬ (hasKey [("question", JVal.str "Q")] "question" = true ∧
        hasKey [("question", JVal.str "Q")] "answer" = true ∧
        hasKey [("question", JVal.str "Q")] "category" = true ∧
        hasKey [("question", JVal.str "Q")] "difficulty" = true)) ∧
    add_question none [("question", JVal.str "Q")] true 5 demo11
      = (demo11, .err 422) :=
  ⟨by decide,
    (C4_add_failure none [("question", .str "Q")] true 5 demo11).1 (by decide)⟩

/-- C5: a `POST /questions` body with all four keys whose insert
succeeds gets 200; the store grows by exactly one row, the returned
`created` id is the id of the newly stored row, and the payload carries
the pagination of the re-fetched (id-ordered) updated store together
with the new total count. -/
theorem C5_add_success (page : Option Int) (body : List (String × JVal))
    (newId : Nat) (db : List Question)
    (hq : hasKey body "question" = true) (ha : hasKey body "answer" = true)
    (hc : hasKey body "category" = true)
    (hd : hasKey body "difficulty" = true) :
    ∃ p, add_question page body true newId db
        = (db ++ [buildQuestion body newId], .ok p) ∧
      p.created = (buildQuestion body newId).id ∧
      (db ++ [buildQuestion body newId]).length = db.length + 1 ∧
      p.questions
        = paginate_questions page (orderById (db ++ [buildQuestion body newId])) ∧
      p.total_questions = db.length + 1 := by
  refine ⟨⟨newId,
      paginate_questions page (orderById (db ++ [buildQuestion body newId])),
      (orderById (db ++ [buildQuestion body newId])).length⟩,
    ?_, rfl, by simp, rfl, ?_⟩
  · unfold add_question
    rw [if_pos (by simp [hq, ha, hc, hd])]
    rfl
  · show (orderById (db ++ [buildQuestion body newId])).length = db.length + 1
    rw [orderById_length]
    simp

theorem C5_add_success_witness :
    (hasKey bodyAll "question" = true ∧ hasKey bodyAll "answer" = true ∧
      hasKey bodyAll "category" = true ∧
      hasKey bodyAll "difficulty" = true) ∧
    ∃ p, add_question none bodyAll true 1 []
        = ([] ++ [buildQuestion bodyAll 1], .ok p) ∧
      p.created = (buildQuestion bodyAll 1).id ∧
      (([] : List Question) ++ [buildQuestion bodyAll 1]).length
        = List.length ([] : List Question) + 1 ∧
      p.questions
        = paginate_questions none (orderById ([] ++ [buildQuestion bodyAll 1])) ∧
      p.total_questions = List.length ([] : List Question) + 1 :=
  ⟨by decide, C5_add_success none bodyAll 1 []
    (by decide) (by decide) (by decide) (by decide)⟩

/-- C10: the create-question validation is key-presence only — with all
four keys present the handler never rejects the body, whatever the
values (a JSON null included), and the row it builds and inserts carries
exactly those values. -/
theorem C10_presence_only (page : Option Int) (body : List (String × JVal))
    (newId : Nat) (db : List Question)
    (hq : hasKey body "question" = true) (ha : hasKey body "answer" = true)
    (hc : hasKey body "category" = true)
    (hd : hasKey body "difficulty" = true) :
    (add_question page body true newId db).1
        = db ++ [⟨newId, getVal body "question", getVal body "answer",
                  getVal body "category", getVal body "difficulty"⟩] ∧
    ∃ p, (add_question page body true newId db).2 = .ok p := by
  unfold add_question
  rw [if_pos (by simp [hq, ha, hc, hd])]
  exact ⟨rfl, ⟨_, rfl⟩⟩

theorem C10_presence_only_witness :
    (hasKey bodyNulls "question" = true ∧ hasKey bodyNulls "answer" = true ∧
      hasKey bodyNulls "category" = true ∧
      hasKey bodyNulls "difficulty" = true) ∧
    ((add_question none bodyNulls true 7 demo11).1
        = demo11 ++ [⟨7, getVal bodyNulls "question", getVal bodyNulls "answer",
                      getVal bodyNulls "category", getVal bodyNulls "difficulty"⟩] ∧
      ∃ p, (add_question none bodyNulls true 7 demo11).2 = .ok p) :=
  ⟨by decide, C10_presence_only none bodyNulls 7 demo11
    (by decide) (by decide) (by decide) (by decide)⟩

theorem filter_id_len (db : List Question) (qid : Nat)
    (hnodup : (db.map Question.id).Nodup) (hex : ∃ q ∈ db, q.id = qid) :
    (db.filter (fun q => q.id == qid)).length = 1 := by
  induction db with
  | nil => simp at hex
  | cons a l ih =>
    rw [List.map_cons, List.nodup_cons] at hnodup
    by_cases hid : a.id = qid
    · have hl : l.filter (fun q => q.id == qid) = [] := by
        refine List.filter_eq_nil_iff.mpr (fun q hq => ?_)
        simp only [beq_iff_eq]
        intro he
        exact hnodup.1 (List.mem_map.mpr ⟨q, hq, by rw [he, hid]⟩)
      simp [List.filter_cons, hid, hl]
    · have hex2 : ∃ q ∈ l, q.id = qid := by
        rcases hex with ⟨q, hq, hqe⟩
        rcases List.mem_cons.mp hq with rfl | hql
        · exact absurd hqe hid
        · exact ⟨q, hql, hqe⟩
      have := ih hnodup.2 hex2
      simp [List.filter_cons, hid, this]

/-- C6: when the store's ids are distinct (the primary-key invariant), a
delete of an id with no matching row answers 422 with the store
untouched — as does a delete whose database operation fails, with no
distinction between the two; a delete of an existing id that commits
answers 200 with the deleted id, and the store no longer holds a row
with that id. -/
theorem C6_delete (qid : Nat) (db : List Question)
    (hnodup : (db.map Question.id).Nodup) :
    ((∀ q ∈ db, q.id ≠ qid) → ∀ deleteOk,
      delete_question qid deleteOk db = (db, .err 422)) ∧
    ((∃ q ∈ db, q.id = qid) →
      delete_question qid false db = (db, .err 422)) ∧
    ((∃ q ∈ db, q.id = qid) →
      delete_question qid true db
          = (db.filter (fun q => !(q.id == qid)), .ok ⟨qid⟩) ∧
      ∀ q ∈ (delete_question qid true db).1, q.id ≠ qid) := by
  refine ⟨?_, ?_, ?_⟩
  · intro hnone deleteOk
    have hnil : db.filter (fun q => q.id == qid) = [] :=
      List.filter_eq_nil_iff.mpr
        (fun q hq => by simpa using hnone q hq)
    simp [delete_question, hnil]
  · intro hex
    simp [delete_question, filter_id_len db qid hnodup hex]
  · intro hex
    have hone := filter_id_len db qid hnodup hex
    have heq : delete_question qid true db
        = (db.filter (fun q => !(q.id == qid)), .ok ⟨qid⟩) := by
      simp [delete_question, hone]
    refine ⟨heq, fun q hq => ?_⟩
    rw [heq] at hq
    have := (List.mem_filter.mp hq).2
    simpa using this

theorem C6_delete_witness :
    (([mkQ 1, mkQ 2].map Question.id).Nodup ∧
      (∃ q ∈ [mkQ 1, mkQ 2], q.id = 1)) ∧
    delete_question 1 true [mkQ 1, mkQ 2]
      = ([mkQ 1, mkQ 2].filter (fun q => !(q.id == 1)), .ok ⟨1⟩) :=
  ⟨⟨by decide, ⟨mkQ 1, by decide, rfl⟩⟩,
    ((C6_delete 1 [mkQ 1, mkQ 2] (by decide)).2.2
      ⟨mkQ 1, by decide, rfl⟩).1⟩

theorem sqlEq_str_right (a : JVal) (s : String)
    (h : sqlEq a (.str s) = true) : a = .str s := by
  cases a <;> simp_all [sqlEq]

/-- C7: a category id absent from the stored categories yields 404; a
known id yields 200 with `currentCategory` echoing the id, every
returned question's category equal to the stringified id, and the total
count of the questions of that category. -/
theorem C7_by_category (page : Option Int) (cid : Nat)
    (cats : List Category) (db : List Question) :
    (cid ∉ cats.map Category.id →
      retrieve_questions_by_category page cid cats db = .err 404) ∧
    (cid ∈ cats.map Category.id →
      ∃ p, retrieve_questions_by_category page cid cats db = .ok p ∧
        p.currentCategory = cid ∧
        (∀ fq ∈ p.questions, fq.category = .str (toString cid)) ∧
        p.total_questions
          = (db.filter
              (fun q => sqlEq q.category (.str (toString cid)))).length) := by
  constructor
  · intro h
    simp [retrieve_questions_by_category, h]
  · intro h
    refine ⟨⟨paginate_questions page
        (db.filter (fun q => sqlEq q.category (.str (toString cid)))),
        (db.filter (fun q => sqlEq q.category (.str (toString cid)))).length,
        cid⟩,
      by simp [retrieve_questions_by_category, h], rfl, ?_, rfl⟩
    intro fq hfq
    have hmem : fq ∈ (db.filter
        (fun q => sqlEq q.category (.str (toString cid)))).map
          Question.format := by
      unfold paginate_questions pySlice at hfq
      exact List.mem_of_mem_take (List.mem_of_mem_drop hfq)
    obtain ⟨q, hq, rfl⟩ := List.mem_map.mp hmem
    exact sqlEq_str_right _ _ (List.mem_filter.mp hq).2

theorem C7_by_category_witness :
    (1 ∈ [Category.mk 1 "Science"].map Category.id) ∧
    ∃ p, retrieve_questions_by_category none 1 [⟨1, "Science"⟩] [mkQ 1]
        = .ok p ∧
      p.currentCategory = 1 ∧
      (∀ fq ∈ p.questions, fq.category = .str (toString 1)) ∧
      p.total_questions
        = ([mkQ 1].filter
            (fun q => sqlEq q.category (.str (toString 1)))).length :=
  ⟨by decide, (C7_by_category none 1 [⟨1, "Science"⟩] [mkQ 1]).2 (by decide)⟩

/-- C9: the 400, 404 and 422 handlers render exactly the claimed body
`{success: false, error: code, message: text}`, but the 500 handler
misspells the message key as `"messgae"` (line 280), so its body carries
no `message` member — the spec states the intended shape and the code's
spelling is a slip. -/
theorem C9_error_shape :
    claimedErrorShape bad_request.1 400 ∧ bad_request.2 = 400 ∧
    claimedErrorShape not_found.1 404 ∧ not_found.2 = 404 ∧
    claimedErrorShape unprocessable.1 422 ∧ unprocessable.2 = 422 ∧
    internal_server_error.2 = 500 ∧
    ¬ claimedErrorShape internal_server_error.1 500 ∧
    lookupKey "message" internal_server_error.1 = none ∧
    lookupKey "messgae" internal_server_error.1
      = some (.str "An internal error has occured") := by
  decide

end Trivia
